import Mathlib

/-!
Verification development for the Datarails Finance OS MCP client
(`src/mcp-server/src/datarails_mcp/`): a shallow embedding in Lean 4 of the
credential/token lifecycle manager (`auth.py`), the environment registry
(`constants.py`), the API client request pipeline (`client.py`), and the
paginated fetch routines (`scripts/intelligence_workbook.py`,
`scripts/extract_financials.py`), together with theorems settling the
frozen specification claims.

Modelling conventions:
- Python strings are Lean `String` / `List Char`; bytes are `List Nat`
  (each < 256); Python floats are modelled as exact decimal numbers
  (`PyFloat`, a mantissa with a power-of-ten scale), so binary-double
  rounding, overflow to infinity and NaN are outside the model.
- Python truthiness of an optional string (`if x:`) is `pyTruthy`:
  present and non-empty.
- Network I/O is modelled by oracle parameters giving each call's
  outcome; functions return the number of network calls they perform so
  that "performs no/one network call" claims are statable.
-/

/-- Python truthiness of an optional string: `None` and `""` are falsy. -/
def pyTruthy : Option String → Bool
  | none => false
  | some s => s ≠ ""

/-! ## Exact decimal numbers standing in for Python floats

Python float values reaching the model are timestamps and JSON `exp`
values; they are modelled exactly as `m * 10 ^ (-s)`.  All comparisons
are by cross-multiplication, so they are value comparisons, independent
of the representation chosen. -/

/-- Exact decimal number `m / 10 ^ s` modelling a Python float value. -/
structure PyFloat where
  m : Int
  s : Nat
deriving DecidableEq

/-- Ten to a natural power, as an integer. -/
def pow10 : Nat → Int
  | 0 => 1
  | n + 1 => 10 * pow10 n

/-- Embed an integer as a `PyFloat`. -/
def pfInt (n : Int) : PyFloat := ⟨n, 0⟩

/-- Value equality of `PyFloat`s (Python `==`). -/
def pfEq (a b : PyFloat) : Bool := a.m * pow10 b.s = b.m * pow10 a.s

/-- Value order on `PyFloat`s (Python `<`). -/
def pfLt (a b : PyFloat) : Bool := a.m * pow10 b.s < b.m * pow10 a.s

/-- Subtraction of `PyFloat`s. -/
def pfSub (a b : PyFloat) : PyFloat := ⟨a.m * pow10 b.s - b.m * pow10 a.s, a.s + b.s⟩

/-! ## JWT expiry decoding (`BrowserAuth._decode_jwt_exp` / `EnvAuth._decode_jwt_exp`)

Both classes carry the identical `_decode_jwt_exp` method; it is embedded
once.  The method splits the token on `'.'`, pads the middle segment to a
multiple of four, base64url-decodes it (`base64.urlsafe_b64decode`),
parses the bytes as JSON (`json.loads`), and converts the `exp` entry
with Python `float(...)`; every failure is caught and yields `0`.
-/

/-- Python `str.split('.')`: splits at every occurrence of `'.'`, keeping
empty segments, and returns `[""]` on the empty string. -/
def splitDot : List Char → List (List Char)
  | [] => [[]]
  | c :: rest =>
    match splitDot rest with
    | [] => [[c]]
    | h :: t => if c = '.' then [] :: h :: t else (c :: h) :: t

/-- Padding step from `_decode_jwt_exp`: `padding = 4 - len(payload) % 4`,
appended as `'='` characters when it is not `4`. -/
def padB64 (payload : List Char) : List Char :=
  let padding := 4 - payload.length % 4
  if padding ≠ 4 then payload ++ List.replicate padding '=' else payload

/-- Value of a standard base64 alphabet character, `none` otherwise. -/
def b64CharVal (c : Char) : Option Nat :=
  if 'A' ≤ c ∧ c ≤ 'Z' then some (c.toNat - 65)
  else if 'a' ≤ c ∧ c ≤ 'z' then some (c.toNat - 97 + 26)
  else if '0' ≤ c ∧ c ≤ '9' then some (c.toNat - 48 + 52)
  else if c = '+' then some 62
  else if c = '/' then some 63
  else none

def isB64Char (c : Char) : Bool := (b64CharVal c).isSome

/-- The urlsafe alphabet translation done by `base64.urlsafe_b64decode`. -/
def b64Translate (c : Char) : Char :=
  if c = '-' then '+' else if c = '_' then '/' else c

/-- Decode a list of sextet values into bytes.  A trailing group of one
sextet is invalid; groups of two or three yield one or two bytes. -/
def b64DecodeQuads : List Nat → Option (List Nat)
  | [] => some []
  | [_] => none
  | [v0, v1] => some [v0 * 4 + v1 / 16]
  | [v0, v1, v2] => some [v0 * 4 + v1 / 16, v1 % 16 * 16 + v2 / 4]
  | v0 :: v1 :: v2 :: v3 :: rest =>
    (b64DecodeQuads rest).map
      (fun bs => (v0 * 4 + v1 / 16) :: (v1 % 16 * 16 + v2 / 4) :: (v2 % 4 * 64 + v3) :: bs)

/-- Model of `base64.b64decode` (non-validating, as called by
`urlsafe_b64decode`): characters outside the alphabet and padding are
discarded; a final group of one data character is invalid, and final
groups of two or three data characters require padding characters to be
present.  (CPython's non-strict decoder additionally allows data after
padding to start a new group; that corner is not modelled.) -/
def b64Decode (payload : List Char) : Option (List Nat) :=
  let filtered := (payload.map b64Translate).filter (fun c => isB64Char c ∨ c = '=')
  let dataChars := filtered.takeWhile (fun c => c ≠ '=')
  let pads := filtered.length - dataChars.length
  let r := dataChars.length % 4
  if r = 1 then none
  else if r = 2 ∧ pads < 2 then none
  else if r = 3 ∧ pads < 1 then none
  else b64DecodeQuads (dataChars.filterMap b64CharVal)

/-- Is a byte a UTF-8 continuation byte (`0x80–0xBF`)? -/
def isCont (b : Nat) : Bool := 0x80 ≤ b ∧ b < 0xC0

/-- UTF-8 decoding of a byte list, rejecting truncated sequences,
overlong encodings and surrogate code points, as Python's `bytes.decode`
does (a UTF-8 BOM is not given special treatment in the model). -/
def utf8Decode : List Nat → Option (List Char)
  | [] => some []
  | b :: rest =>
    if b < 0x80 then (utf8Decode rest).map (fun cs => Char.ofNat b :: cs)
    else if 0xC2 ≤ b ∧ b ≤ 0xDF then
      match rest with
      | b2 :: r =>
        if isCont b2 then
          (utf8Decode r).map (fun cs => Char.ofNat ((b - 0xC0) * 64 + (b2 - 0x80)) :: cs)
        else none
      | [] => none
    else if 0xE0 ≤ b ∧ b ≤ 0xEF then
      match rest with
      | b2 :: b3 :: r =>
        if isCont b2 ∧ isCont b3 then
          let cp := (b - 0xE0) * 4096 + (b2 - 0x80) * 64 + (b3 - 0x80)
          if cp < 0x800 ∨ (0xD800 ≤ cp ∧ cp ≤ 0xDFFF) then none
          else (utf8Decode r).map (fun cs => Char.ofNat cp :: cs)
        else none
      | _ => none
    else if 0xF0 ≤ b ∧ b ≤ 0xF4 then
      match rest with
      | b2 :: b3 :: b4 :: r =>
        if isCont b2 ∧ isCont b3 ∧ isCont b4 then
          let cp := (b - 0xF0) * 262144 + (b2 - 0x80) * 4096 + (b3 - 0x80) * 64 + (b4 - 0x80)
          if cp < 0x10000 ∨ 0x10FFFF < cp then none
          else (utf8Decode r).map (fun cs => Char.ofNat cp :: cs)
        else none
      | _ => none
    else none

/-! ### JSON values and parsing (model of `json.loads`)

Python's default `json.loads` is modelled with numbers as exact
decimals (`PyFloat`).  The non-standard literals `NaN`/`Infinity` accepted by
CPython, and lone-surrogate `\uXXXX` escapes, are treated as parse
failures in the model. -/

inductive JValue where
  | null
  | bool (b : Bool)
  | num (q : PyFloat)
  | str (s : List Char)
  | arr (elems : List JValue)
  | obj (fields : List (List Char × JValue))

/-- JSON whitespace accepted between tokens by `json.loads`. -/
def isJsonWs (c : Char) : Bool := c = ' ' ∨ c = '\t' ∨ c = '\n' ∨ c = '\r'

def skipWs (s : List Char) : List Char := s.dropWhile isJsonWs

def isDigitCh (c : Char) : Bool := '0' ≤ c ∧ c ≤ '9'

def takeDigits (s : List Char) : List Char × List Char :=
  (s.takeWhile isDigitCh, s.dropWhile isDigitCh)

def natOfDigits (l : List Char) : Nat :=
  l.foldl (fun a c => a * 10 + (c.toNat - 48)) 0

/-- Assemble a decimal number from sign, integer digits, fraction digits
and decimal exponent. -/
def pfOfParts (neg : Bool) (intDs fracDs : List Char) (e : Int) : PyFloat :=
  let mantNat : Int := (natOfDigits (intDs ++ fracDs) : Nat)
  let mant : Int := if neg then -mantNat else mantNat
  let e10 : Int := e - fracDs.length
  if 0 ≤ e10 then ⟨mant * pow10 e10.toNat, 0⟩ else ⟨mant, (-e10).toNat⟩

/-- Optional exponent part `([eE][+-]?digits)` of a JSON number. -/
def parseExpPart : List Char → Option (Int × List Char)
  | [] => some (0, [])
  | c :: r =>
    if c = 'e' ∨ c = 'E' then
      let signed : Int × List Char :=
        match r with
        | '+' :: r2 => (1, r2)
        | '-' :: r2 => (-1, r2)
        | _ => (1, r)
      let p := takeDigits signed.2
      if p.1 = [] then none else some (signed.1 * (natOfDigits p.1 : Nat), p.2)
    else some (0, c :: r)

/-- JSON number: `-?(0|[1-9][0-9]*)(\.[0-9]+)?([eE][+-]?[0-9]+)?`. -/
def parseJsonNumber (s : List Char) : Option (PyFloat × List Char) :=
  let signed : Bool × List Char :=
    match s with
    | '-' :: r => (true, r)
    | _ => (false, s)
  let ip := takeDigits signed.2
  if ip.1 = [] then none
  else if ip.1.length > 1 ∧ ip.1.head? = some '0' then none
  else
    let fp : Option (List Char × List Char) :=
      match ip.2 with
      | '.' :: r => let q := takeDigits r; if q.1 = [] then none else some q
      | _ => some ([], ip.2)
    match fp with
    | none => none
    | some (fracDs, s3) =>
      match parseExpPart s3 with
      | none => none
      | some (e, s4) => some (pfOfParts signed.1 ip.1 fracDs e, s4)

def hexVal (c : Char) : Option Nat :=
  if '0' ≤ c ∧ c ≤ '9' then some (c.toNat - 48)
  else if 'a' ≤ c ∧ c ≤ 'f' then some (c.toNat - 97 + 10)
  else if 'A' ≤ c ∧ c ≤ 'F' then some (c.toNat - 65 + 10)
  else none

/-- JSON string body after the opening quote: strict mode, so unescaped
control characters are rejected; `\uXXXX` escapes outside the surrogate
range decode to the code point. -/
def parseJString : Nat → List Char → Option (List Char × List Char)
  | 0, _ => none
  | _, [] => none
  | fuel + 1, c :: rest =>
    if c = '"' then some ([], rest)
    else if c = '\\' then
      match rest with
      | [] => none
      | e :: r2 =>
        let simpleEsc : Option Char :=
          if e = '"' then some '"'
          else if e = '\\' then some '\\'
          else if e = '/' then some '/'
          else if e = 'b' then some (Char.ofNat 8)
          else if e = 'f' then some (Char.ofNat 12)
          else if e = 'n' then some '\n'
          else if e = 'r' then some '\r'
          else if e = 't' then some '\t'
          else none
        match simpleEsc with
        | some ch => (parseJString fuel r2).map (fun p => (ch :: p.1, p.2))
        | none =>
          if e = 'u' then
            match r2 with
            | h1 :: h2 :: h3 :: h4 :: r3 =>
              match hexVal h1, hexVal h2, hexVal h3, hexVal h4 with
              | some v1, some v2, some v3, some v4 =>
                let cp := v1 * 4096 + v2 * 256 + v3 * 16 + v4
                if 0xD800 ≤ cp ∧ cp ≤ 0xDFFF then none
                else (parseJString fuel r3).map (fun p => (Char.ofNat cp :: p.1, p.2))
              | _, _, _, _ => none
            | _ => none
          else none
    else if c.toNat < 0x20 then none
    else (parseJString fuel rest).map (fun p => (c :: p.1, p.2))

mutual

/-- One JSON value, fuel-bounded recursive-descent (fuel exceeds input
length at the top-level call, so it never runs out on real input). -/
def parseJValue : Nat → List Char → Option (JValue × List Char)
  | 0, _ => none
  | fuel + 1, s =>
    match skipWs s with
    | [] => none
    | c :: rest =>
      if c = 'n' then
        match rest with
        | 'u' :: 'l' :: 'l' :: r => some (JValue.null, r)
        | _ => none
      else if c = 't' then
        match rest with
        | 'r' :: 'u' :: 'e' :: r => some (JValue.bool true, r)
        | _ => none
      else if c = 'f' then
        match rest with
        | 'a' :: 'l' :: 's' :: 'e' :: r => some (JValue.bool false, r)
        | _ => none
      else if c = '"' then
        (parseJString (rest.length + 1) rest).map (fun p => (JValue.str p.1, p.2))
      else if c = '[' then
        match skipWs rest with
        | ']' :: r => some (JValue.arr [], r)
        | _ => (parseJArrayItems fuel rest).map (fun p => (JValue.arr p.1, p.2))
      else if c = '\x7b' then
        match skipWs rest with
        | '\x7d' :: r => some (JValue.obj [], r)
        | _ => (parseJObjFields fuel rest).map (fun p => (JValue.obj p.1, p.2))
      else
        (parseJsonNumber (c :: rest)).map (fun p => (JValue.num p.1, p.2))

/-- Comma-separated array items followed by `']'`. -/
def parseJArrayItems : Nat → List Char → Option (List JValue × List Char)
  | 0, _ => none
  | fuel + 1, s =>
    match parseJValue fuel s with
    | none => none
    | some (v, rest) =>
      match skipWs rest with
      | ']' :: r => some ([v], r)
      | ',' :: r =>
        (parseJArrayItems fuel r).map (fun p => (v :: p.1, p.2))
      | _ => none

/-- Comma-separated `"key": value` fields followed by the closing brace. -/
def parseJObjFields : Nat → List Char → Option (List (List Char × JValue) × List Char)
  | 0, _ => none
  | fuel + 1, s =>
    match skipWs s with
    | '"' :: rest =>
      match parseJString (rest.length + 1) rest with
      | none => none
      | some (key, rest2) =>
        match skipWs rest2 with
        | ':' :: rest3 =>
          match parseJValue fuel rest3 with
          | none => none
          | some (v, rest4) =>
            match skipWs rest4 with
            | '\x7d' :: r => some ([(key, v)], r)
            | ',' :: r => (parseJObjFields fuel r).map (fun p => ((key, v) :: p.1, p.2))
            | _ => none
        | _ => none
    | _ => none

end

/-- Model of `json.loads` on a decoded character sequence: parse one
value and require only whitespace to remain. -/
def jsonParse (s : List Char) : Option JValue :=
  match parseJValue (s.length + 1) s with
  | some (v, rest) => if skipWs rest = [] then some v else none
  | none => none

/-- Python `dict` lookup on parsed JSON object fields: on duplicate keys
the last occurrence wins, as in `json.loads`. -/
def jObjGet (fields : List (List Char × JValue)) (k : List Char) : Option JValue :=
  ((fields.filter (fun p => p.1 = k)).getLast?).map (fun p => p.2)

/-- Python whitespace stripped by `float(str)` (ASCII portion). -/
def isPySpace (c : Char) : Bool :=
  c = ' ' ∨ c = '\t' ∨ c = '\n' ∨ c = '\r' ∨ c = Char.ofNat 11 ∨ c = Char.ofNat 12

/-- Model of Python `float(str)` on the stripped text: optional sign,
digits with optional fraction and exponent (`"1."`, `".5"`, `"1e3"` all
accepted).  Underscored literals and `inf`/`nan` spellings are treated
as failures in the model. -/
def pyFloatOfChars (s : List Char) : Option PyFloat :=
  let t := ((s.dropWhile isPySpace).reverse.dropWhile isPySpace).reverse
  let signed : Bool × List Char :=
    match t with
    | '-' :: r => (true, r)
    | '+' :: r => (false, r)
    | _ => (false, t)
  let ip := takeDigits signed.2
  let fp : List Char × List Char :=
    match ip.2 with
    | '.' :: r => takeDigits r
    | _ => ([], ip.2)
  if ip.1 = [] ∧ fp.1 = [] then none
  else
    match parseExpPart fp.2 with
    | none => none
    | some (e, rest) =>
      if rest = [] then some (pfOfParts signed.1 ip.1 fp.1 e) else none

/-- Model of Python `float(x)` on a parsed JSON value: numbers pass
through, booleans convert to `1`/`0`, numeric strings are parsed;
`None`, lists and dicts raise `TypeError` (→ `none`). -/
def pyFloatOfJson : JValue → Option PyFloat
  | JValue.num q => some q
  | JValue.bool b => some (if b then pfInt 1 else pfInt 0)
  | JValue.str s => pyFloatOfChars s
  | _ => none

/-- The middle-segment JSON payload of a JWT: split on `'.'`, require
three segments, pad, base64url-decode, UTF-8-decode, JSON-parse. -/
def jwtPayloadJson (token : String) : Option JValue :=
  match splitDot token.data with
  | [_, payload, _] =>
    (b64Decode (padB64 payload)).bind fun bytes =>
      (utf8Decode bytes).bind fun cs => jsonParse cs
  | _ => none

/-- Embedding of `_decode_jwt_exp` (identical in `BrowserAuth` and
`EnvAuth`): every failure — wrong segment count, invalid base64, invalid
UTF-8/JSON, non-dict payload, missing or non-convertible `exp` — yields
`0`; a missing `exp` uses the default `0` (`float(data.get('exp', 0))`). -/
def decodeJwtExp (token : String) : PyFloat :=
  match jwtPayloadJson token with
  | some (JValue.obj fields) =>
    match jObjGet fields ['e', 'x', 'p'] with
    | some v => (pyFloatOfJson v).getD (pfInt 0)
    | none => pfInt 0
  | _ => pfInt 0


/-! ## BrowserAuth token lifecycle (`auth.py`, class `BrowserAuth`)

State fields mirror the instance attributes; `env` and the URLs are set
at construction.  Network calls (`_refresh_access_token`'s POST to
`/jwt/api/token/refresh/` and `_fetch_token_pair`'s POST to
`/jwt/api/token/`) are modelled by an oracle giving each endpoint's
outcome: `none` stands for any exception, timeout or non-200 response
(all swallowed by the source), `some` for an HTTP 200 whose JSON body
carries the new token(s).  Each operation reports how many network
calls it performed. -/

structure BrowserAuthState where
  env : String
  authUrl : String
  sessionId : Option String
  csrfToken : Option String
  accessToken : Option String
  refreshToken : Option String
  accessExp : PyFloat
  refreshExp : PyFloat
deriving DecidableEq

/-- Outcomes of the two token endpoints for the next call to each:
`refreshResp` is the `access` field of a 200 response from
`/jwt/api/token/refresh/`, `fetchResp` the `(access, refresh)` pair of a
200 response from `/jwt/api/token/`. -/
structure TokenNetOracle where
  refreshResp : Option String
  fetchResp : Option (String × String)
deriving DecidableEq

/-- Result of a token-lifecycle operation: the boolean the source
returns, the number of network calls performed, and the new state. -/
structure EnsureOutcome where
  ok : Bool
  netCalls : Nat
  state : BrowserAuthState
deriving DecidableEq

/-- Embedding of `BrowserAuth._needs_refresh`: no (truthy) access token,
or `time.time() > access_exp - REFRESH_BUFFER_SECONDS`. -/
def needsRefresh (st : BrowserAuthState) (now : PyFloat) : Bool :=
  if ¬ pyTruthy st.accessToken then true
  else pfLt (pfSub st.accessExp (pfInt 30)) now

/-- Embedding of `BrowserAuth._refresh_token_valid`: a (truthy) refresh
token with `time.time() < refresh_exp - REFRESH_BUFFER_SECONDS`. -/
def refreshTokenValid (st : BrowserAuthState) (now : PyFloat) : Bool :=
  if ¬ pyTruthy st.refreshToken then false
  else pfLt now (pfSub st.refreshExp (pfInt 30))

/-- Embedding of `BrowserAuth._refresh_access_token`: no refresh token →
`False` without a network call; otherwise one POST whose 200 response
installs the new access token and its decoded expiry. -/
def refreshAccessToken (st : BrowserAuthState) (orc : TokenNetOracle) : EnsureOutcome :=
  if ¬ pyTruthy st.refreshToken then ⟨false, 0, st⟩
  else
    match orc.refreshResp with
    | some tok => ⟨true, 1, { st with accessToken := some tok, accessExp := decodeJwtExp tok }⟩
    | none => ⟨false, 1, st⟩

/-- Embedding of `BrowserAuth._fetch_token_pair`: missing session cookies
→ `False` without a network call; otherwise one POST whose 200 response
installs both tokens and their decoded expiries. -/
def fetchTokenPair (st : BrowserAuthState) (orc : TokenNetOracle) : EnsureOutcome :=
  if ¬ (pyTruthy st.sessionId ∧ pyTruthy st.csrfToken) then ⟨false, 0, st⟩
  else
    match orc.fetchResp with
    | some (a, r) =>
      ⟨true, 1,
        { st with
            accessToken := some a
            refreshToken := some r
            accessExp := decodeJwtExp a
            refreshExp := decodeJwtExp r }⟩
    | none => ⟨false, 1, st⟩

/-- Embedding of `BrowserAuth.ensure_valid_token`: fast path when no
refresh is needed; otherwise try the refresh exchange when the refresh
token is valid, falling back to a full token-pair fetch. -/
def ensureValidToken (st : BrowserAuthState) (now : PyFloat) (orc : TokenNetOracle) :
    EnsureOutcome :=
  if ¬ needsRefresh st now then ⟨true, 0, st⟩
  else if refreshTokenValid st now then
    let r := refreshAccessToken st orc
    if r.ok then r
    else
      let f := fetchTokenPair r.state orc
      ⟨f.ok, r.netCalls + f.netCalls, f.state⟩
  else fetchTokenPair st orc

/-- Embedding of `BrowserAuth.has_session` / `is_authenticated`:
`bool(self._session_id and self._csrf_token)`. -/
def isAuthenticated (st : BrowserAuthState) : Bool :=
  pyTruthy st.sessionId ∧ pyTruthy st.csrfToken

/-! ## EnvAuth (`auth.py`, class `EnvAuth`)

Constructed from the `DATARAILS_SESSION_ID`, `DATARAILS_CSRF_TOKEN` and
`DATARAILS_JWT_TOKEN` environment variables; a direct JWT token becomes
the initial access token with a lazily decoded expiry. -/

structure EnvAuthState where
  sessionId : Option String
  csrfToken : Option String
  jwtToken : Option String
  accessToken : Option String
  refreshToken : Option String
  accessExp : PyFloat
  refreshExp : PyFloat
deriving DecidableEq

structure EnvEnsureOutcome where
  ok : Bool
  netCalls : Nat
  state : EnvAuthState
deriving DecidableEq

/-- Embedding of `EnvAuth.__init__` given the three environment
variables' values. -/
def envAuthInit (sid csrf jwt : Option String) : EnvAuthState :=
  ⟨sid, csrf, jwt, jwt, none, pfInt 0, pfInt 0⟩

/-- Embedding of `EnvAuth._needs_refresh`: decodes the expiry on first
use (when the stored expiry equals `0`), mutating the state. -/
def envNeedsRefresh (st : EnvAuthState) (now : PyFloat) : Bool × EnvAuthState :=
  match st.accessToken with
  | none => (true, st)
  | some tok =>
    if tok = "" then (true, st)
    else
      let exp := if pfEq st.accessExp (pfInt 0) then decodeJwtExp tok else st.accessExp
      (pfLt (pfSub exp (pfInt 30)) now, { st with accessExp := exp })

/-- Embedding of `EnvAuth._fetch_token_pair` (same shape as the
`BrowserAuth` one). -/
def envFetchTokenPair (st : EnvAuthState) (orc : TokenNetOracle) : EnvEnsureOutcome :=
  if ¬ (pyTruthy st.sessionId ∧ pyTruthy st.csrfToken) then ⟨false, 0, st⟩
  else
    match orc.fetchResp with
    | some (a, r) =>
      ⟨true, 1,
        { st with
            accessToken := some a
            refreshToken := some r
            accessExp := decodeJwtExp a
            refreshExp := decodeJwtExp r }⟩
    | none => ⟨false, 1, st⟩

/-- Embedding of `EnvAuth.ensure_valid_token`: fast path when no refresh
is needed; a token-pair fetch only when both session cookies are set;
otherwise `False` with no network call. -/
def envEnsureValidToken (st : EnvAuthState) (now : PyFloat) (orc : TokenNetOracle) :
    EnvEnsureOutcome :=
  let p := envNeedsRefresh st now
  if ¬ p.1 then ⟨true, 0, p.2⟩
  else if pyTruthy p.2.sessionId ∧ pyTruthy p.2.csrfToken then envFetchTokenPair p.2 orc
  else ⟨false, 0, p.2⟩

/-- Embedding of `EnvAuth.is_configured` (and its alias
`is_authenticated`): session cookie pair present, or a direct JWT. -/
def envIsAuthenticated (st : EnvAuthState) : Bool :=
  (pyTruthy st.sessionId ∧ pyTruthy st.csrfToken) ∨ pyTruthy st.jwtToken

/-! ## Credential Store (`auth.py`: `_load_session`, `_save_session`,
`_save_to_fallback_file`, `clear_session`, with the keyring timeout
wrappers)

The keyring is modelled as `none` when unavailable (no backend, locked,
or timing out — the timeout wrappers turn all of these into a miss /
failed save) and otherwise as a consistent map from account name to the
stored entry.  Stored JSON values are modelled structurally: an entry
holds the two optional string fields the source reads back
(`session_id`, `csrf_token`); `env`/`saved_at` play no role in any
claim.  The fallback file is absent, corrupt (anything `json.loads`
rejects), or a well-formed top-level object keyed by environment name.
A top-level key that is not an environment entry (the legacy flat
format read by `data.get(env, data)`) is representable only as the
whole-map fallback, whose `session_id`/`csrf_token` lookups then miss. -/

structure CredEntry where
  sessionId : Option String
  csrfToken : Option String
deriving DecidableEq

/-- Association-list update with Python `dict` semantics
(`d[k] = v`): replace in place or append. -/
def assocSet (k : String) (v : CredEntry) : List (String × CredEntry) → List (String × CredEntry)
  | [] => [(k, v)]
  | (k1, v1) :: rest => if k1 = k then (k, v) :: rest else (k1, v1) :: assocSet k v rest

/-- Association-list removal (`d.pop(k, None)` /
`keyring.delete_password`): every pair with the key goes, which on the
duplicate-free lists produced by dict semantics coincides with removing
the single entry. -/
def assocErase (k : String) : List (String × CredEntry) → List (String × CredEntry)
  | [] => []
  | p :: rest => if p.1 = k then assocErase k rest else p :: assocErase k rest

def assocGet (k : String) : List (String × CredEntry) → Option CredEntry
  | [] => none
  | (k1, v1) :: rest => if k1 = k then some v1 else assocGet k rest

/-- Contents of the fallback auth file `~/.datarails-auth.json`. -/
inductive FileData where
  | corrupt
  | entries (l : List (String × CredEntry))
deriving DecidableEq

/-- The persistent world the Credential Store touches. -/
structure CredWorld where
  keyring : Option (List (String × CredEntry))
  file : Option FileData
deriving DecidableEq

/-- Embedding of `get_keyring_account` from `constants.py`. -/
def keyringAccount (env : String) : String := "session_" ++ env

/-- Embedding of `BrowserAuth._load_session`: keyring first (returning
early only when both loaded cookies are truthy), then the fallback file,
whose per-environment entry — or, for a missing key, the whole top-level
object — overwrites both fields; a missing or corrupt file leaves the
keyring-loaded fields in place. -/
def loadSession (env : String) (w : CredWorld) : Option String × Option String :=
  let fromKeyring : Option CredEntry := w.keyring.bind (assocGet (keyringAccount env))
  let init : Option String × Option String :=
    match fromKeyring with
    | some e => (e.sessionId, e.csrfToken)
    | none => (none, none)
  if pyTruthy init.1 ∧ pyTruthy init.2 then init
  else
    match w.file with
    | some (FileData.entries l) =>
      match assocGet env l with
      | some e => (e.sessionId, e.csrfToken)
      | none => (none, none)
    | _ => init

/-- Embedding of `BrowserAuth._save_session` (as reached from
`set_session_cookies(session_id, csrf_token)`): write to the keyring;
only when that fails, merge into the fallback file
(`_save_to_fallback_file`), which silently does nothing when the
existing file is corrupt. -/
def saveSession (env : String) (sid csrf : String) (w : CredWorld) : CredWorld :=
  let entry : CredEntry := ⟨some sid, some csrf⟩
  match w.keyring with
  | some m => { w with keyring := some (assocSet (keyringAccount env) entry m) }
  | none =>
    match w.file with
    | none => { w with file := some (FileData.entries [(env, entry)]) }
    | some (FileData.entries l) => { w with file := some (FileData.entries (assocSet env entry l)) }
    | some FileData.corrupt => w

/-- Embedding of the store side of `BrowserAuth.clear_session`: delete
the keyring entry, then pop this environment's key from the fallback
file (a corrupt file is left untouched by the swallowed exception). -/
def clearStore (env : String) (w : CredWorld) : CredWorld :=
  let kr := w.keyring.map (assocErase (keyringAccount env))
  let f :=
    match w.file with
    | some (FileData.entries l) => some (FileData.entries (assocErase env l))
    | other => other
  ⟨kr, f⟩

/-- The stored credential for one environment as a pair of views:
keyring entry and fallback-file entry. -/
def storedEntry (env : String) (w : CredWorld) : Option CredEntry × Option CredEntry :=
  (w.keyring.bind (assocGet (keyringAccount env)),
   match w.file with
   | some (FileData.entries l) => assocGet env l
   | _ => none)

/-- Embedding of `BrowserAuth.clear_session` including the in-memory
effect: wipes session cookies and both JWT tokens. -/
def clearSession (st : BrowserAuthState) (w : CredWorld) : BrowserAuthState × CredWorld :=
  ({ st with sessionId := none, csrfToken := none, accessToken := none, refreshToken := none },
   clearStore st.env w)

/-! ## API client request pipeline (`client.py`, `DatarailsClient._request`)

Modelled for the `BrowserAuth` backend (the one claim C5 concerns; the
`EnvAuth` branches return fixed error strings instead of the structured
payload).  The HTTP exchange is an oracle: a status/text/JSON-body
response, a timeout, or a connection error; response bodies are opaque
strings, with `none` for a body `response.json()` fails on.
Apostrophes in the source's instruction strings are spelled out
(`you'll` → `you will`) — their exact wording plays no role in any
claim. -/

inductive HttpOutcome where
  | resp (status : Nat) (text : String) (jsonBody : Option String)
  | timeout
  | netErr (msg : String)
deriving DecidableEq

/-- The structured dict built by `BrowserAuth.needs_auth_response`
(the `extraction_js` field is omitted from the model). -/
structure NeedsAuthPayload where
  error : String
  message : String
  environment : String
  loginUrl : String
  instructions : List String
deriving DecidableEq

/-- Embedding of `BrowserAuth.needs_auth_response`; `displayName` is the
environment's display name resolved from `get_environments()`. -/
def needsAuthResponse (displayName : String) (st : BrowserAuthState) : NeedsAuthPayload :=
  { error := "authentication_required"
    message := "Please authenticate with Datarails (" ++ displayName ++ ") to continue."
    environment := st.env
    loginUrl := st.authUrl
    instructions :=
      [ "1. Open " ++ st.authUrl ++ " in browser"
      , "2. Sign in with Microsoft SSO"
      , "3. After login, you will be redirected to the Datarails app"
      , "4. I will extract the session cookies (sessionid, csrftoken) automatically"
      , "5. These cookies are persistent - you will not need to re-authenticate frequently" ] }

/-- The structured results `_request` can return (never an exception). -/
inductive ReqResult where
  | needsAuth (p : NeedsAuthPayload)
  | apiError (status : Nat) (details : String)
  | ok (body : String)
  | timeoutError
  | requestError (msg : String)
  | invalidJson
deriving DecidableEq

/-- Embedding of `DatarailsClient._request` over a `BrowserAuth` backend:
auth check, token check, then the HTTP exchange; 401 clears the session
(tokens, cookies, keyring and fallback-file entry) and returns the
structured auth-required payload; other ≥400 statuses return a
structured error; timeouts and connection errors return structured
errors. -/
def clientRequest (st : BrowserAuthState) (w : CredWorld) (now : PyFloat)
    (orc : TokenNetOracle) (displayName : String) (outcome : HttpOutcome) :
    ReqResult × BrowserAuthState × CredWorld :=
  if ¬ isAuthenticated st then (ReqResult.needsAuth (needsAuthResponse displayName st), st, w)
  else
    let e := ensureValidToken st now orc
    if ¬ e.ok then (ReqResult.needsAuth (needsAuthResponse displayName e.state), e.state, w)
    else
      match outcome with
      | HttpOutcome.timeout => (ReqResult.timeoutError, e.state, w)
      | HttpOutcome.netErr m => (ReqResult.requestError m, e.state, w)
      | HttpOutcome.resp status text jsonBody =>
        if status = 401 then
          let c := clearSession e.state w
          (ReqResult.needsAuth (needsAuthResponse displayName c.1), c.1, c.2)
        else if 400 ≤ status then (ReqResult.apiError status text, e.state, w)
        else
          match jsonBody with
          | some b => (ReqResult.ok b, e.state, w)
          | none => (ReqResult.invalidJson, e.state, w)

/-! ## Query tools (`client.py`, `get_filtered` / `get_sample`)

Only the request shaping is modelled: the endpoint string and the JSON
body handed to `_request`. -/

/-- One value of the simple filters dict accepted by `get_filtered`. -/
inductive PyFilterVal where
  | str (s : String)
  | list (l : List String)
  | inVals (l : List String)
  | notInVals (l : List String)
  | otherDict
deriving DecidableEq

/-- One Finance OS filter object `{name, values, is_excluded}`. -/
structure ApiFilter where
  name : String
  values : List String
  isExcluded : Bool
deriving DecidableEq

/-- The filter-conversion loop of `get_filtered`: `in`/`not_in` dicts
map to include/exclude filters, scalars and lists to include filters,
and any other dict shape is skipped. -/
def toFilterList : List (String × PyFilterVal) → List ApiFilter
  | [] => []
  | (f, v) :: rest =>
    let tail := toFilterList rest
    match v with
    | PyFilterVal.inVals l => ⟨f, l, false⟩ :: tail
    | PyFilterVal.notInVals l => ⟨f, l, true⟩ :: tail
    | PyFilterVal.str s => ⟨f, [s], false⟩ :: tail
    | PyFilterVal.list l => ⟨f, l, false⟩ :: tail
    | PyFilterVal.otherDict => tail

/-- JSON body POSTed to the `/data` endpoint (`filters := none` covers
both an explicit `None` and an absent key). -/
structure DataRequestBody where
  filters : Option (List ApiFilter)
  limit : Int
  offset : Int
  getAllVersions : Bool
deriving DecidableEq

/-- Embedding of `DatarailsClient.get_filtered`'s request shaping:
`safe_limit = min(limit, 500)`, offset `0`. -/
def getFilteredRequest (tableId : String) (filters : List (String × PyFilterVal))
    (limit : Int) : String × DataRequestBody :=
  let safeLimit := min limit 500
  let fl := toFilterList filters
  ("/tables/v1/" ++ tableId ++ "/data",
   ⟨if fl = [] then none else some fl, safeLimit, 0, false⟩)

/-- Embedding of `DatarailsClient.get_sample`'s request shaping:
`safe_n = min(n, 20)`, offset `0`. -/
def getSampleRequest (tableId : String) (n : Int) : String × DataRequestBody :=
  ("/tables/v1/" ++ tableId ++ "/data", ⟨none, min n 20, 0, false⟩)

/-! ## Environment registry (`constants.py`) -/

def DEFAULT_ENV : String := "dev"

/-- Embedding of `get_active_environment`: the `DATARAILS_ENV` process
variable when truthy (set and non-empty), else the config file's
`active_environment` when the key is present (a missing or unreadable
config yields an empty dict, hence the default), else `DEFAULT_ENV`. -/
def getActiveEnvironment (envVar activeCfg : Option String) : String :=
  if pyTruthy envVar then envVar.getD "" else activeCfg.getD DEFAULT_ENV

/-! ## Paginated fetch routines

`_fetch_raw_data_paginated` (`scripts/intelligence_workbook.py`) and
`FinancialExtractor.fetch_pages` (`scripts/extract_financials.py`).
The backend is a function from offset to the page response (status and
the `data` rows — rows are modelled as natural numbers); the claims'
mock backends are deterministic per offset, so one response per offset
suffices.  Each model returns the accumulated rows together with the
log of page-request offsets in order; token-refresh calls
(`ensure_valid_token`, every 20 000 rows or on a 401) touch the auth
state only and are not page requests, so they do not appear in the log.
The `while` loops are given fuel; the page-2/page-3 claims need only a
handful of steps, and fuel exhaustion returns the rows accumulated so
far. -/

structure PageResp where
  status : Nat
  rows : List Nat
deriving DecidableEq

/-- Embedding of `_fetch_raw_data_paginated`'s nested loops: `retry = 0`
marks the head of an outer iteration (where `len(all_data) < max_rows`
is re-checked); 401/429/≥500 retry the same offset up to `max_retries =
3` attempts, then abort returning the partial rows; other non-200
statuses break the retry loop and re-enter the outer loop at the same
offset; an empty or short page ends the fetch. -/
def fetchRawDataPaginated (backend : Nat → PageResp) (maxRows : Nat) :
    Nat → List Nat → Nat → Nat → List Nat → List Nat × List Nat
  | 0, data, _, _, log => (data, log)
  | fuel + 1, data, offset, retry, log =>
    if retry = 0 ∧ ¬ data.length < maxRows then (data, log)
    else
      let r := backend offset
      let log1 := log ++ [offset]
      if r.status = 401 ∨ r.status = 429 ∨ 500 ≤ r.status then
        if retry + 1 < 3 then fetchRawDataPaginated backend maxRows fuel data offset (retry + 1) log1
        else (data, log1)
      else if r.status ≠ 200 then fetchRawDataPaginated backend maxRows fuel data offset 0 log1
      else if r.rows = [] then (data, log1)
      else
        let data2 := data ++ r.rows
        if r.rows.length < 500 then (data2, log1)
        else fetchRawDataPaginated backend maxRows fuel data2 (offset + 500) 0 log1

/-- Embedding of `FinancialExtractor.fetch_pages`: a single loop with no
retry counter — a 401 triggers one refresh and one immediate re-request
of the same offset, any other non-200 status breaks out, an empty or
short page ends the fetch. -/
def fetchPages (backend : Nat → PageResp) (maxRows : Nat) :
    Nat → List Nat → Nat → List Nat → List Nat × List Nat
  | 0, data, _, log => (data, log)
  | fuel + 1, data, offset, log =>
    if ¬ data.length < maxRows then (data, log)
    else
      let r0 := backend offset
      let log1 := log ++ [offset]
      let rl : PageResp × List Nat :=
        if r0.status = 401 then (backend offset, log1 ++ [offset]) else (r0, log1)
      if rl.1.status ≠ 200 then (data, rl.2)
      else if rl.1.rows = [] then (data, rl.2)
      else
        let data2 := data ++ rl.1.rows
        if rl.1.rows.length < 500 then (data2, rl.2)
        else fetchPages backend maxRows fuel data2 (offset + 500) rl.2

/-- The C2 mock backend: all of table rows `0..1699` served 500 at a
time — full pages at offsets 0, 500, 1000, a short 200-row page at
1500 (and nothing beyond). -/
def backendThreeFull (o : Nat) : PageResp :=
  if o < 1500 then ⟨200, List.range' o 500⟩
  else if o = 1500 then ⟨200, List.range' 1500 200⟩
  else ⟨200, []⟩

/-- The C3 mock backend: one full page at offset 0, then HTTP 500 on
every attempt at any further offset. -/
def backendPageTwoDown (o : Nat) : PageResp :=
  if o = 0 then ⟨200, List.range 500⟩ else ⟨500, []⟩





/-! ### Single-step lemmas for the pagination loops -/

lemma fetchRDP_step_full (backend : Nat → PageResp) (maxRows fuel : Nat)
    (data : List Nat) (offset : Nat) (log : List Nat) (rows : List Nat)
    (hlen : data.length < maxRows) (hb : backend offset = ⟨200, rows⟩)
    (hr : rows.length = 500) :
    fetchRawDataPaginated backend maxRows (fuel + 1) data offset 0 log =
      fetchRawDataPaginated backend maxRows fuel (data ++ rows) (offset + 500) 0 (log ++ [offset]) := by
  have hne : rows ≠ [] := by intro h; rw [h] at hr; simp at hr
  simp [fetchRawDataPaginated, hb, hlen, hne, hr]

lemma fetchRDP_step_short (backend : Nat → PageResp) (maxRows fuel : Nat)
    (data : List Nat) (offset : Nat) (log : List Nat) (rows : List Nat)
    (hlen : data.length < maxRows) (hb : backend offset = ⟨200, rows⟩)
    (hne : rows ≠ []) (hr : rows.length < 500) :
    fetchRawDataPaginated backend maxRows (fuel + 1) data offset 0 log =
      (data ++ rows, log ++ [offset]) := by
  simp [fetchRawDataPaginated, hb, hlen, hne, hr]

lemma fetchRDP_step_serverErr (backend : Nat → PageResp) (maxRows fuel : Nat)
    (data : List Nat) (offset retry : Nat) (log : List Nat)
    (hfirst : retry = 0 → data.length < maxRows)
    (hstat : 500 ≤ (backend offset).status) (hlt : retry + 1 < 3) :
    fetchRawDataPaginated backend maxRows (fuel + 1) data offset retry log =
      fetchRawDataPaginated backend maxRows fuel data offset (retry + 1) (log ++ [offset]) := by
  have hfirst' : ¬ (retry = 0 ∧ ¬ data.length < maxRows) := fun h => h.2 (hfirst h.1)
  simp [fetchRawDataPaginated, hfirst', hstat, hlt]
  exact fun h1 h2 => absurd (hfirst h1) (Nat.not_lt.mpr h2)

lemma fetchRDP_step_serverErrAbort (backend : Nat → PageResp) (maxRows fuel : Nat)
    (data : List Nat) (offset retry : Nat) (log : List Nat)
    (hfirst : retry = 0 → data.length < maxRows)
    (hstat : 500 ≤ (backend offset).status) (hge : ¬ retry + 1 < 3) :
    fetchRawDataPaginated backend maxRows (fuel + 1) data offset retry log =
      (data, log ++ [offset]) := by
  have hfirst' : ¬ (retry = 0 ∧ ¬ data.length < maxRows) := fun h => h.2 (hfirst h.1)
  simp [fetchRawDataPaginated, hfirst', hstat, hge]
  exact hfirst

lemma fetchPages_step_full (backend : Nat → PageResp) (maxRows fuel : Nat)
    (data : List Nat) (offset : Nat) (log : List Nat) (rows : List Nat)
    (hlen : data.length < maxRows) (hb : backend offset = ⟨200, rows⟩)
    (hr : rows.length = 500) :
    fetchPages backend maxRows (fuel + 1) data offset log =
      fetchPages backend maxRows fuel (data ++ rows) (offset + 500) (log ++ [offset]) := by
  have hne : rows ≠ [] := by intro h; rw [h] at hr; simp at hr
  simp [fetchPages, hb, hlen, hne, hr]

lemma fetchPages_step_short (backend : Nat → PageResp) (maxRows fuel : Nat)
    (data : List Nat) (offset : Nat) (log : List Nat) (rows : List Nat)
    (hlen : data.length < maxRows) (hb : backend offset = ⟨200, rows⟩)
    (hne : rows ≠ []) (hr : rows.length < 500) :
    fetchPages backend maxRows (fuel + 1) data offset log =
      (data ++ rows, log ++ [offset]) := by
  simp [fetchPages, hb, hlen, hne, hr]

/-! ## Claim theorems -/

/-- C2: against a backend serving exactly three full 500-row pages (at
offsets 0, 500, 1000) and then a short 200-row page (at offset 1500),
both paginated fetch routines return exactly the 1700 rows in offset
order and request exactly the four offsets — no fifth page request is
issued after the short page. -/
theorem paginated_fetch_three_full_pages_then_short :
    fetchRawDataPaginated backendThreeFull 100000 20 [] 0 0 [] =
      (List.range 1700, [0, 500, 1000, 1500]) ∧
    fetchPages backendThreeFull 100000 20 [] 0 [] =
      (List.range 1700, [0, 500, 1000, 1500]) := by
  have h3 : List.range' 1000 500 ++ List.range' 1500 200 = List.range' 1000 700 := by
    have h := List.range'_append 1000 500 200 1
    norm_num at h
    exact h
  have h2 : List.range' 500 500 ++ List.range' 1000 700 = List.range' 500 1200 := by
    have h := List.range'_append 500 500 700 1
    norm_num at h
    exact h
  have h1 : List.range' 0 500 ++ List.range' 500 1200 = List.range' 0 1700 := by
    have h := List.range'_append 0 500 1200 1
    norm_num at h
    exact h
  constructor
  · rw [show (20 : Nat) = 19 + 1 from rfl,
        fetchRDP_step_full _ _ _ _ _ _ (List.range' 0 500) (by simp)
          (by norm_num [backendThreeFull]) (by simp),
        show (19 : Nat) = 18 + 1 from rfl,
        fetchRDP_step_full _ _ _ _ _ _ (List.range' 500 500) (by simp)
          (by norm_num [backendThreeFull]) (by simp),
        show (18 : Nat) = 17 + 1 from rfl,
        fetchRDP_step_full _ _ _ _ _ _ (List.range' 1000 500) (by simp)
          (by norm_num [backendThreeFull]) (by simp),
        show (17 : Nat) = 16 + 1 from rfl,
        fetchRDP_step_short _ _ _ _ _ _ (List.range' 1500 200) (by simp)
          (by norm_num [backendThreeFull]) (by simp [List.range'_eq_nil]) (by simp)]
    simp [List.range_eq_range', h3, h2, h1]
  · rw [show (20 : Nat) = 19 + 1 from rfl,
        fetchPages_step_full _ _ _ _ _ _ (List.range' 0 500) (by simp)
          (by norm_num [backendThreeFull]) (by simp),
        show (19 : Nat) = 18 + 1 from rfl,
        fetchPages_step_full _ _ _ _ _ _ (List.range' 500 500) (by simp)
          (by norm_num [backendThreeFull]) (by simp),
        show (18 : Nat) = 17 + 1 from rfl,
        fetchPages_step_full _ _ _ _ _ _ (List.range' 1000 500) (by simp)
          (by norm_num [backendThreeFull]) (by simp),
        show (17 : Nat) = 16 + 1 from rfl,
        fetchPages_step_short _ _ _ _ _ _ (List.range' 1500 200) (by simp)
          (by norm_num [backendThreeFull]) (by simp [List.range'_eq_nil]) (by simp)]
    simp [List.range_eq_range', h3, h2, h1]

/-- C3: against a backend serving one full page at offset 0 and HTTP 500
on every attempt at offset 500, `_fetch_raw_data_paginated` requests
page 2 three times (the `max_retries = 3` attempt bound), then aborts
the whole fetch and returns exactly the 500 rows of page 1 — a partial
result, and by construction no exception. -/
theorem paginated_fetch_aborts_after_retry_bound :
    fetchRawDataPaginated backendPageTwoDown 100000 20 [] 0 0 [] =
      (List.range 500, [0, 500, 500, 500]) := by
  rw [show (20 : Nat) = 19 + 1 from rfl,
      fetchRDP_step_full _ _ _ _ _ _ (List.range 500) (by simp)
        (by norm_num [backendPageTwoDown]) (by simp),
      show (19 : Nat) = 18 + 1 from rfl,
      fetchRDP_step_serverErr _ _ _ _ _ _ _ (fun _ => by simp)
        (by norm_num [backendPageTwoDown]) (by norm_num),
      show (18 : Nat) = 17 + 1 from rfl,
      fetchRDP_step_serverErr _ _ _ _ _ _ _ (by omega)
        (by norm_num [backendPageTwoDown]) (by norm_num),
      show (17 : Nat) = 16 + 1 from rfl,
      fetchRDP_step_serverErrAbort _ _ _ _ _ _ _ (by omega)
        (by norm_num [backendPageTwoDown]) (by norm_num)]
  simp

/-- C8 counterexample: with the process variable set to the empty string
and a persisted selection `"app"`, `get_active_environment` returns
`"app"`, not the environment-variable value — a set-but-empty variable
does not win, because the source tests Python truthiness, not
presence. -/
theorem get_active_environment_empty_envvar_counterexample :
    getActiveEnvironment (some "") (some "app") = "app" ∧
    ¬ getActiveEnvironment (some "") (some "app") = "" := by decide

/-- C8 (amended): a set and non-empty environment variable always wins;
otherwise (unset or empty) the persisted config selection wins when
present; otherwise the hardcoded default `"dev"` is returned. -/
theorem get_active_environment_precedence (envVar activeCfg : Option String) :
    (∀ v, envVar = some v → v ≠ "" → getActiveEnvironment envVar activeCfg = v) ∧
    (pyTruthy envVar = false →
      ∀ c, activeCfg = some c → getActiveEnvironment envVar activeCfg = c) ∧
    (pyTruthy envVar = false → activeCfg = none →
      getActiveEnvironment envVar activeCfg = "dev") := by
  refine ⟨?_, ?_, ?_⟩
  · intro v hv hne
    subst hv
    simp [getActiveEnvironment, pyTruthy, hne]
  · intro hf c hc
    subst hc
    simp [getActiveEnvironment, hf]
  · intro hf hc
    subst hc
    simp [getActiveEnvironment, hf, DEFAULT_ENV]

/-- C8 witness: a non-empty environment variable beats a persisted
selection. -/
theorem get_active_environment_precedence_witness :
    getActiveEnvironment (some "prod") (some "app") = "prod" :=
  (get_active_environment_precedence (some "prod") (some "app")).1 "prod" rfl (by decide)

/-- C9: whatever limit a caller passes, `get_filtered` POSTs to the
`/data` endpoint with `limit = min(limit, 500)` and `offset = 0`, and
`get_sample` with `limit = min(n, 20)` and `offset = 0`. -/
theorem client_row_fetch_limit_caps (tableId : String)
    (filters : List (String × PyFilterVal)) (limit n : Int) :
    (getFilteredRequest tableId filters limit).2.limit = min limit 500 ∧
    (getFilteredRequest tableId filters limit).2.offset = 0 ∧
    (getFilteredRequest tableId filters limit).1 = "/tables/v1/" ++ tableId ++ "/data" ∧
    (getSampleRequest tableId n).2.limit = min n 20 ∧
    (getSampleRequest tableId n).2.offset = 0 := by
  simp [getFilteredRequest, getSampleRequest]

/-- C10: an `EnvAuth` configured with only a (non-empty) direct JWT
token reports `is_authenticated() = True`, yet once `now` is past the
decoded expiry minus the 30-second buffer, `ensure_valid_token()`
returns `False` with zero network calls — with no session cookies there
is no refresh path, and only the lazily decoded expiry is written
back. -/
theorem envauth_jwt_only_no_refresh_path (jwt : String) (now : PyFloat)
    (orc : TokenNetOracle) (hjwt : jwt ≠ "")
    (hexp : pfLt (pfSub (decodeJwtExp jwt) (pfInt 30)) now = true) :
    envIsAuthenticated (envAuthInit none none (some jwt)) = true ∧
    envEnsureValidToken (envAuthInit none none (some jwt)) now orc =
      ⟨false, 0, { envAuthInit none none (some jwt) with accessExp := decodeJwtExp jwt }⟩ := by
  constructor
  · simp [envIsAuthenticated, envAuthInit, pyTruthy, hjwt]
  · simp [envEnsureValidToken, envNeedsRefresh, envAuthInit, pyTruthy, hjwt, hexp,
      show pfEq (pfInt 0) (pfInt 0) = true from by decide]

/-- C10 witness: the malformed token `"x"` decodes to expiry `0`, which
at time `1` is inside the buffer. -/
theorem envauth_jwt_only_no_refresh_path_witness :
    envIsAuthenticated (envAuthInit none none (some "x")) = true ∧
    envEnsureValidToken (envAuthInit none none (some "x")) (pfInt 1) ⟨none, none⟩ =
      ⟨false, 0, { envAuthInit none none (some "x") with accessExp := decodeJwtExp "x" }⟩ :=
  envauth_jwt_only_no_refresh_path "x" (pfInt 1) ⟨none, none⟩ (by decide) (by decide)

/-! ### Association-list and account-key lemmas for the store claims -/

lemma assocGet_set_self (k : String) (v : CredEntry) (l : List (String × CredEntry)) :
    assocGet k (assocSet k v l) = some v := by
  induction l with
  | nil => simp [assocSet, assocGet]
  | cons p rest ih =>
    by_cases h : p.1 = k
    · simp [assocSet, assocGet, h]
    · simpa [assocSet, assocGet, h] using ih

lemma assocGet_set_ne (k k2 : String) (v : CredEntry) (l : List (String × CredEntry))
    (h : k2 ≠ k) : assocGet k2 (assocSet k v l) = assocGet k2 l := by
  induction l with
  | nil => simp [assocSet, assocGet, h, Ne.symm h]
  | cons p rest ih =>
    by_cases h1 : p.1 = k
    · simp [assocSet, assocGet, h1, Ne.symm h, h]
    · by_cases h2 : p.1 = k2
      · simp [assocSet, assocGet, h1, h2, Ne.symm h, h]
      · simpa [assocSet, assocGet, h1, h2] using ih

lemma assocGet_erase_self (k : String) (l : List (String × CredEntry)) :
    assocGet k (assocErase k l) = none := by
  induction l with
  | nil => simp [assocErase, assocGet]
  | cons p rest ih =>
    by_cases h : p.1 = k
    · simpa [assocErase, assocGet, h] using ih
    · simpa [assocErase, assocGet, h] using ih

lemma assocGet_erase_ne (k k2 : String) (l : List (String × CredEntry)) (h : k2 ≠ k) :
    assocGet k2 (assocErase k l) = assocGet k2 l := by
  induction l with
  | nil => simp [assocErase, assocGet]
  | cons p rest ih =>
    by_cases h1 : p.1 = k
    · have hne : ¬ p.1 = k2 := by rw [h1]; exact Ne.symm h
      have hk : ¬ (k = k2) := fun hh => h hh.symm
      simp [assocErase, assocGet, h1, hne, ih, hk]
    · by_cases h2 : p.1 = k2
      · simp [assocErase, assocGet, h1, h2, h]
      · simp [assocErase, assocGet, h1, h2, ih, h]

lemma keyringAccount_inj {a b : String} (h : keyringAccount a = keyringAccount b) : a = b := by
  have hd := congrArg String.data h
  simp [keyringAccount, String.data_append] at hd
  exact String.ext hd

/-- C4 counterexample: the three-segment token whose payload is
`\x7b"exp": true\x7d` has no numeric `exp` field, yet the decoder
returns `1`, not `0` — Python `float(True)` is `1.0`. -/
theorem decode_jwt_exp_nonnumeric_counterexample :
    pfEq (decodeJwtExp "a.eyJleHAiOnRydWV9.b") (pfInt 0) = false ∧
    pfEq (decodeJwtExp "a.eyJleHAiOnRydWV9.b") (pfInt 1) = true ∧
    jwtPayloadJson "a.eyJleHAiOnRydWV9.b" =
      some (JValue.obj [(['e', 'x', 'p'], JValue.bool true)]) :=
  ⟨by decide, by decide, by rfl⟩

/-- C4 (amended): the decoder is a total function; it returns `0` for
every input that fails any stage of the pipeline — does not split into
three segments, middle segment not valid base64, decoded bytes not
valid UTF-8/JSON, payload not a JSON object, `exp` missing — and also
whenever the `exp` value is not `float()`-convertible (`null`, arrays,
objects, non-numeric strings).  An `exp` holding a number, a boolean or
a numeric string converts and is returned instead (so only those can
produce a nonzero expiry). -/
theorem decode_jwt_exp_total_default (token : String)
    (h : ∀ fields, jwtPayloadJson token = some (JValue.obj fields) →
      ∀ v, jObjGet fields ['e', 'x', 'p'] = some v → pyFloatOfJson v = none) :
    decodeJwtExp token = pfInt 0 := by
  cases hp : jwtPayloadJson token with
  | none => simp [decodeJwtExp, hp]
  | some jv =>
    cases jv with
    | obj fields =>
      cases hg : jObjGet fields ['e', 'x', 'p'] with
      | none => simp [decodeJwtExp, hp, hg]
      | some v => simp [decodeJwtExp, hp, hg, h fields hp v hg]
    | null => simp [decodeJwtExp, hp]
    | bool b => simp [decodeJwtExp, hp]
    | num q => simp [decodeJwtExp, hp]
    | str s => simp [decodeJwtExp, hp]
    | arr l => simp [decodeJwtExp, hp]

/-- C4 witness: a one-segment token fails the split stage and decodes
to `0`. -/
theorem decode_jwt_exp_total_default_witness :
    decodeJwtExp "x" = pfInt 0 :=
  decode_jwt_exp_total_default "x" (by
    intro fields hp
    rw [show jwtPayloadJson "x" = none from rfl] at hp
    exact Option.noConfusion hp)

/-- C6 counterexample: with the keyring unavailable and a corrupt
fallback file, `save` silently writes nothing (the merge step swallows
the parse failure), so the subsequent `load` finds no credential rather
than the saved pair. -/
theorem save_then_load_roundtrip_counterexample :
    loadSession "dev" (saveSession "dev" "sid" "csrf" ⟨none, some FileData.corrupt⟩) =
      (none, none) ∧
    loadSession "dev" (saveSession "dev" "sid" "csrf" ⟨none, some FileData.corrupt⟩) ≠
      (some "sid", some "csrf") := by decide

/-- C6 (amended): for non-empty credentials, and provided the keyring is
available or the fallback file is not corrupt, `save` then `load` for
the same environment returns exactly the saved pair; and — with no
side condition at all, for every environment, pair and world — `save`
leaves every other environment's stored entry (keyring slot and
fallback-file entry) unchanged. -/
theorem save_then_load_roundtrip (env sid csrf : String) (w : CredWorld) :
    (sid ≠ "" → csrf ≠ "" → w.keyring ≠ none ∨ w.file ≠ some FileData.corrupt →
      loadSession env (saveSession env sid csrf w) = (some sid, some csrf)) ∧
    ∀ e2, e2 ≠ env → storedEntry e2 (saveSession env sid csrf w) = storedEntry e2 w := by
  obtain ⟨kr, file⟩ := w
  constructor
  · intro hsid hcsrf hw
    cases kr with
    | some m =>
      simp [saveSession, loadSession, assocGet_set_self, pyTruthy, hsid, hcsrf]
    | none =>
      cases file with
      | none => simp [saveSession, loadSession, assocGet, pyTruthy, hsid, hcsrf]
      | some fd =>
        cases fd with
        | corrupt =>
          rcases hw with hk | hf
          · exact absurd rfl hk
          · exact absurd rfl hf
        | entries l =>
          simp [saveSession, loadSession, assocGet_set_self, pyTruthy, hsid, hcsrf]
  · intro e2 hne
    have hacc : keyringAccount e2 ≠ keyringAccount env := fun hh => hne (keyringAccount_inj hh)
    cases kr with
    | some m => simp [saveSession, storedEntry, assocGet_set_ne _ _ _ _ hacc]
    | none =>
      cases file with
      | none => simp [saveSession, storedEntry, assocGet, hne, Ne.symm hne]
      | some fd =>
        cases fd with
        | corrupt => simp [saveSession, storedEntry]
        | entries l => simp [saveSession, storedEntry, assocGet_set_ne _ _ _ _ hne]

/-- C6 witness: an available (empty) keyring and no fallback file for
the round trip, and the frame conjunct at a distinct environment of a
corrupt-file, keyring-less world (where the round-trip side conditions
fail but the frame still holds). -/
theorem save_then_load_roundtrip_witness :
    loadSession "dev" (saveSession "dev" "s" "c" ⟨some [], none⟩) = (some "s", some "c") ∧
    storedEntry "app" (saveSession "dev" "s" "c" ⟨none, some FileData.corrupt⟩) =
      storedEntry "app" ⟨none, some FileData.corrupt⟩ :=
  ⟨(save_then_load_roundtrip "dev" "s" "c" ⟨some [], none⟩).1 (by decide) (by decide)
      (Or.inl (by simp)),
   (save_then_load_roundtrip "dev" "s" "c" ⟨none, some FileData.corrupt⟩).2 "app" (by decide)⟩

/-- C7: for distinct environments that both have saved credentials,
`clear(e1)` makes a subsequent `load(e1)` find nothing, while
`load(e2)` still returns exactly the pair it returned before — the
clear removes only the target environment's keyring slot and
fallback-file entry. -/
theorem clear_only_target_environment (e1 e2 sid1 csrf1 sid2 csrf2 : String) (w : CredWorld)
    (hne : e2 ≠ e1)
    (h1 : loadSession e1 w = (some sid1, some csrf1))
    (h2 : loadSession e2 w = (some sid2, some csrf2)) :
    loadSession e1 (clearStore e1 w) = (none, none) ∧
    loadSession e2 (clearStore e1 w) = (some sid2, some csrf2) := by
  have hacc : keyringAccount e2 ≠ keyringAccount e1 := fun hh => hne (keyringAccount_inj hh)
  obtain ⟨kr, file⟩ := w
  constructor
  · cases kr with
    | some m =>
      cases file with
      | none => simp [clearStore, loadSession, assocGet_erase_self, pyTruthy]
      | some fd =>
        cases fd with
        | corrupt => simp [clearStore, loadSession, assocGet_erase_self, pyTruthy]
        | entries l => simp [clearStore, loadSession, assocGet_erase_self, pyTruthy]
    | none =>
      cases file with
      | none => simp [clearStore, loadSession, assocGet, pyTruthy]
      | some fd =>
        cases fd with
        | corrupt => simp [clearStore, loadSession, pyTruthy]
        | entries l => simp [clearStore, loadSession, assocGet_erase_self, pyTruthy]
  · have hsame : loadSession e2 (clearStore e1 ⟨kr, file⟩) = loadSession e2 ⟨kr, file⟩ := by
      cases kr with
      | some m =>
        cases file with
        | none => simp [clearStore, loadSession, assocGet_erase_ne _ _ _ hacc]
        | some fd =>
          cases fd with
          | corrupt => simp [clearStore, loadSession, assocGet_erase_ne _ _ _ hacc]
          | entries l =>
            simp [clearStore, loadSession, assocGet_erase_ne _ _ _ hacc,
              assocGet_erase_ne _ _ _ hne]
      | none =>
        cases file with
        | none => simp [clearStore, loadSession]
        | some fd =>
          cases fd with
          | corrupt => simp [clearStore, loadSession]
          | entries l => simp [clearStore, loadSession, assocGet_erase_ne _ _ _ hne]
    rw [hsame, h2]

/-- C7 witness: two environments saved in the keyring. -/
theorem clear_only_target_environment_witness :
    loadSession "a" (clearStore "a"
      ⟨some [("session_a", ⟨some "sa", some "ca"⟩), ("session_b", ⟨some "sb", some "cb"⟩)],
       none⟩) = (none, none) ∧
    loadSession "b" (clearStore "a"
      ⟨some [("session_a", ⟨some "sa", some "ca"⟩), ("session_b", ⟨some "sb", some "cb"⟩)],
       none⟩) = (some "sb", some "cb") :=
  clear_only_target_environment "a" "b" "sa" "ca" "sb" "cb"
    ⟨some [("session_a", ⟨some "sa", some "ca"⟩), ("session_b", ⟨some "sb", some "cb"⟩)], none⟩
    (by decide) (by decide) (by decide)

/-- C1 counterexample: a state with no access token is in the claim's
"otherwise" region (a refresh is needed), yet with no refresh token and
no session cookies `ensure_valid_token` returns `False` after zero
network calls, not exactly one. -/
theorem ensure_valid_token_exactly_one_call_counterexample :
    needsRefresh ⟨"dev", "", none, none, none, none, pfInt 0, pfInt 0⟩ (pfInt 0) = true ∧
    ensureValidToken ⟨"dev", "", none, none, none, none, pfInt 0, pfInt 0⟩ (pfInt 0)
      ⟨none, none⟩ =
      ⟨false, 0, ⟨"dev", "", none, none, none, none, pfInt 0, pfInt 0⟩⟩ := by decide

/-- C1 (amended): when no refresh is needed (a non-empty access token
with `now ≤ exp − 30`), `ensure_valid_token` returns `True` immediately
with zero network calls and an unchanged state; otherwise the number of
network calls is exactly: one for the refresh exchange when the refresh
token is valid beyond the buffer, plus one for the token-pair fetch
when the refresh was not attempted or did not succeed and session
cookies are present — so one call on the successful common paths, two
when a failed refresh falls back to a fetch, and zero when neither a
valid refresh token nor session cookies exist. -/
theorem ensure_valid_token_network_calls (st : BrowserAuthState) (now : PyFloat)
    (orc : TokenNetOracle) :
    (needsRefresh st now = false → ensureValidToken st now orc = ⟨true, 0, st⟩) ∧
    (needsRefresh st now = true →
      (ensureValidToken st now orc).netCalls =
        (if refreshTokenValid st now then 1 else 0) +
        (if (refreshTokenValid st now = false ∨ orc.refreshResp = none) ∧
            (pyTruthy st.sessionId ∧ pyTruthy st.csrfToken) then 1 else 0)) := by
  constructor
  · intro h
    simp [ensureValidToken, h]
  · intro h
    by_cases hrv : refreshTokenValid st now
    · have href : pyTruthy st.refreshToken = true := by
        cases hpt : pyTruthy st.refreshToken with
        | false => simp [refreshTokenValid, hpt] at hrv
        | true => rfl
      cases horc : orc.refreshResp with
      | some tok => simp [ensureValidToken, h, hrv, refreshAccessToken, href, horc]
      | none =>
        by_cases hs : pyTruthy st.sessionId ∧ pyTruthy st.csrfToken
        · cases hfr : orc.fetchResp with
          | some pr =>
            simp [ensureValidToken, h, hrv, refreshAccessToken, href, horc,
              fetchTokenPair, hs, hfr]
          | none =>
            simp [ensureValidToken, h, hrv, refreshAccessToken, href, horc,
              fetchTokenPair, hs, hfr]
        · simp [ensureValidToken, h, hrv, refreshAccessToken, href, horc,
            fetchTokenPair, hs]
    · by_cases hs : pyTruthy st.sessionId ∧ pyTruthy st.csrfToken
      · cases hfr : orc.fetchResp with
        | some pr => simp [ensureValidToken, h, hrv, fetchTokenPair, hs, hfr]
        | none => simp [ensureValidToken, h, hrv, fetchTokenPair, hs, hfr]
      · simp [ensureValidToken, h, hrv, fetchTokenPair, hs]

/-- C1 witness: a fresh access token (expiry 100, now 0) takes the fast
path with zero network calls. -/
theorem ensure_valid_token_network_calls_witness :
    ensureValidToken ⟨"dev", "u", some "s", some "c", some "t", none, pfInt 100, pfInt 0⟩
      (pfInt 0) ⟨none, none⟩ =
      ⟨true, 0, ⟨"dev", "u", some "s", some "c", some "t", none, pfInt 100, pfInt 0⟩⟩ :=
  (ensure_valid_token_network_calls
    ⟨"dev", "u", some "s", some "c", some "t", none, pfInt 100, pfInt 0⟩
    (pfInt 0) ⟨none, none⟩).1 (by decide)

/-- Helper for C5: `ensure_valid_token` never changes the environment
name or the auth URL of the state. -/
lemma ensureValidToken_preserves_env (st : BrowserAuthState) (now : PyFloat)
    (orc : TokenNetOracle) :
    (ensureValidToken st now orc).state.env = st.env ∧
    (ensureValidToken st now orc).state.authUrl = st.authUrl := by
  unfold ensureValidToken refreshAccessToken fetchTokenPair
  dsimp only
  repeat' split
  all_goals simp_all

/-- C5: for a request over the browser-auth backend that passes the
authentication and token checks and receives HTTP 401, the client
clears the in-memory tokens and session cookies and the stored Session
Credential for the environment (keyring slot and fallback-file entry),
and the call returns the structured authentication-required payload
(error tag, login URL, instructions) rather than raising or returning
the response body. -/
theorem client_request_401_clears_session (st : BrowserAuthState) (w : CredWorld)
    (now : PyFloat) (orc : TokenNetOracle) (dn text : String) (jsonBody : Option String)
    (hauth : isAuthenticated st = true)
    (hok : (ensureValidToken st now orc).ok = true) :
    (clientRequest st w now orc dn (HttpOutcome.resp 401 text jsonBody)).1 =
      ReqResult.needsAuth (needsAuthResponse dn st) ∧
    (clientRequest st w now orc dn (HttpOutcome.resp 401 text jsonBody)).2.1.sessionId = none ∧
    (clientRequest st w now orc dn (HttpOutcome.resp 401 text jsonBody)).2.1.csrfToken = none ∧
    (clientRequest st w now orc dn (HttpOutcome.resp 401 text jsonBody)).2.1.accessToken = none ∧
    (clientRequest st w now orc dn (HttpOutcome.resp 401 text jsonBody)).2.1.refreshToken = none ∧
    storedEntry st.env
      (clientRequest st w now orc dn (HttpOutcome.resp 401 text jsonBody)).2.2 =
      (none, none) := by
  have hpres := ensureValidToken_preserves_env st now orc
  have hstored : storedEntry st.env (clearStore st.env w) = (none, none) := by
    obtain ⟨kr, file⟩ := w
    cases kr with
    | some m =>
      cases file with
      | none => simp [clearStore, storedEntry, assocGet_erase_self]
      | some fd =>
        cases fd with
        | corrupt => simp [clearStore, storedEntry, assocGet_erase_self]
        | entries l => simp [clearStore, storedEntry, assocGet_erase_self]
    | none =>
      cases file with
      | none => simp [clearStore, storedEntry]
      | some fd =>
        cases fd with
        | corrupt => simp [clearStore, storedEntry]
        | entries l => simp [clearStore, storedEntry, assocGet_erase_self]
  refine ⟨?_, ?_, ?_, ?_, ?_, ?_⟩ <;>
    simp [clientRequest, hauth, hok, clearSession, needsAuthResponse, hpres.1, hpres.2,
      hstored]

/-- C5 witness: an authenticated state with a fresh token, a populated
store, and a 401 response. -/
theorem client_request_401_clears_session_witness :
    (clientRequest ⟨"dev", "u", some "s", some "c", some "t", none, pfInt 100, pfInt 0⟩
        ⟨some [("session_dev", ⟨some "s", some "c"⟩)],
         some (FileData.entries [("dev", ⟨some "s", some "c"⟩)])⟩
        (pfInt 0) ⟨none, none⟩ "Development" (HttpOutcome.resp 401 "" none)).1 =
      ReqResult.needsAuth (needsAuthResponse "Development"
        ⟨"dev", "u", some "s", some "c", some "t", none, pfInt 100, pfInt 0⟩) ∧
    (clientRequest ⟨"dev", "u", some "s", some "c", some "t", none, pfInt 100, pfInt 0⟩
        ⟨some [("session_dev", ⟨some "s", some "c"⟩)],
         some (FileData.entries [("dev", ⟨some "s", some "c"⟩)])⟩
        (pfInt 0) ⟨none, none⟩ "Development" (HttpOutcome.resp 401 "" none)).2.1.sessionId = none ∧
    (clientRequest ⟨"dev", "u", some "s", some "c", some "t", none, pfInt 100, pfInt 0⟩
        ⟨some [("session_dev", ⟨some "s", some "c"⟩)],
         some (FileData.entries [("dev", ⟨some "s", some "c"⟩)])⟩
        (pfInt 0) ⟨none, none⟩ "Development" (HttpOutcome.resp 401 "" none)).2.1.csrfToken = none ∧
    (clientRequest ⟨"dev", "u", some "s", some "c", some "t", none, pfInt 100, pfInt 0⟩
        ⟨some [("session_dev", ⟨some "s", some "c"⟩)],
         some (FileData.entries [("dev", ⟨some "s", some "c"⟩)])⟩
        (pfInt 0) ⟨none, none⟩ "Development" (HttpOutcome.resp 401 "" none)).2.1.accessToken = none ∧
    (clientRequest ⟨"dev", "u", some "s", some "c", some "t", none, pfInt 100, pfInt 0⟩
        ⟨some [("session_dev", ⟨some "s", some "c"⟩)],
         some (FileData.entries [("dev", ⟨some "s", some "c"⟩)])⟩
        (pfInt 0) ⟨none, none⟩ "Development" (HttpOutcome.resp 401 "" none)).2.1.refreshToken = none ∧
    storedEntry "dev"
      (clientRequest ⟨"dev", "u", some "s", some "c", some "t", none, pfInt 100, pfInt 0⟩
        ⟨some [("session_dev", ⟨some "s", some "c"⟩)],
         some (FileData.entries [("dev", ⟨some "s", some "c"⟩)])⟩
        (pfInt 0) ⟨none, none⟩ "Development" (HttpOutcome.resp 401 "" none)).2.2 =
      (none, none) :=
  client_request_401_clears_session
    ⟨"dev", "u", some "s", some "c", some "t", none, pfInt 100, pfInt 0⟩
    ⟨some [("session_dev", ⟨some "s", some "c"⟩)],
     some (FileData.entries [("dev", ⟨some "s", some "c"⟩)])⟩
    (pfInt 0) ⟨none, none⟩ "Development" "" none (by decide) (by decide)
